import Mathlib

/-!
Shallow embedding of the Spirit PFP generator core (src/app/page.tsx):
the seeded LCG stream (`seeded`), the cover-fit geometry (`fitCover`),
and the render pipeline (`draw` with its layer stages `drawParticles`,
`drawLightning`, tint/glow/vignette), modelled as a pure function from
inputs to a trace of canvas drawing events together with the canvas
context state (composite operation, filter, save stack).

JavaScript numbers are modelled as exact rationals; the 32-bit LCG state
arithmetic (`>>> 0`, `&`) is exact in Nat because every intermediate fits
in a double.  `Math.cos`, `Math.sin` and `Math.PI` are platform
primitives, not repository code, so the pipeline is parametrised by an
arbitrary implementation `JsMath` of them.
-/

namespace SpiritPfp

/-- One step of the tiny LCG in `seeded`:
`s = (1664525 * s + 1013904223) >>> 0`. -/
def lcg (s : ℕ) : ℕ := (1664525 * s + 1013904223) % 4294967296

/-- Initial stream state: `let s = seed >>> 0 || 1` (a seed whose uint32
value is 0 is coerced to 1). -/
def seedInit (seed : ℕ) : ℕ :=
  if seed % 4294967296 = 0 then 1 else seed % 4294967296

/-- Value returned by one draw from state `s` (post-update):
`(s & 0x00ffffff) / 0x01000000`. -/
def rval (s : ℕ) : ℚ := ((s &&& 16777215 : ℕ) : ℚ) / 16777216

/-- State of the stream constructed by `seeded seed` after `n` updates. -/
def streamState (seed : ℕ) : ℕ → ℕ
  | 0 => seedInit seed
  | n + 1 => lcg (streamState seed n)

/-- The `n`-th value (0-indexed) produced by the stream `seeded seed`. -/
def streamVal (seed : ℕ) (n : ℕ) : ℚ := rval (streamState seed (n + 1))

/-- Helper `clamp(v, a, b) = Math.max(a, Math.min(b, v))`. -/
def clamp (v a b : ℚ) : ℚ := max a (min b v)

/-- Result of `fitCover`: source crop square `(sx, sy, s, s)` drawn into the
destination square `(dx, dy, d, d)`. -/
structure FitRect where
  sx : ℤ
  sy : ℤ
  s : ℤ
  dx : ℤ
  dy : ℤ
  d : ℤ
  deriving DecidableEq, Repr

/-- Cover-fit geometry from `fitCover(iw, ih, W, H)`: crop a centred square
of the source whose aspect covers the destination, floors taken exactly as
in the source. -/
def fitCover (iw ih W H : ℕ) : FitRect :=
  let ir : ℚ := (iw : ℚ) / (ih : ℚ)
  let r : ℚ := (W : ℚ) / (H : ℚ)
  if ir > r then
    let s : ℤ := ⌊(ih : ℚ) * ((W : ℚ) / (H : ℚ))⌋
    ⟨⌊((iw : ℚ) - (s : ℚ)) / 2⌋, 0, s, 0, 0, (W : ℤ)⟩
  else
    let s : ℤ := ⌊(iw : ℚ) * ((H : ℚ) / (W : ℚ))⌋
    ⟨0, ⌊((ih : ℚ) - (s : ℚ)) / 2⌋, s, 0, 0, (H : ℤ)⟩

/-- Decoded bitmap supplied by the shell (`img.width`, `img.height`). -/
structure SourceImage where
  width : ℕ
  height : ℕ
  deriving DecidableEq, Repr

/-- Background option of the generator. -/
inductive Background
  | dark
  | transparent
  deriving DecidableEq, Repr

/-- The React state values consumed by `draw`, one field per `useState` of
the component (`size`, `glow`, `intensity`, `cyanize`, `contrast`,
`saturation`, `vignette`, `particles`, `lightning`, `background`). -/
structure StyleParameters where
  size : ℕ
  glow : ℚ
  intensity : ℚ
  cyanize : ℚ
  contrast : ℚ
  saturation : ℚ
  vignette : ℚ
  particles : ℕ
  lightning : Bool
  background : Background
  deriving DecidableEq, Repr

/-- Abstract interface to the platform trigonometry used by
`drawLightning` (`Math.PI`, `Math.cos`, `Math.sin`); the repository does
not implement these, so the pipeline is parametric in them. -/
structure JsMath where
  pi : ℚ
  cos : ℚ → ℚ
  sin : ℚ → ℚ

/-- Canvas `globalCompositeOperation` values used by the code. -/
inductive CompOp
  | sourceOver
  | screen
  deriving DecidableEq, Repr

/-- Canvas `ctx.filter` values used by the code. -/
inductive CanvasFilter
  | noFilter
  | contrastSaturate (c s : ℚ)
  | blurBrightSat (b br sat : ℚ)
  | blurOnly (b : ℚ)
  deriving DecidableEq, Repr

/-- An `rgba` colour with rational components. -/
structure Color where
  r : ℚ
  g : ℚ
  b : ℚ
  a : ℚ
  deriving DecidableEq, Repr

/-- Canvas fill styles used by the code: linear or radial gradients with
their colour stops. -/
inductive FillStyle
  | linearGrad (x0 y0 x1 y1 : ℚ) (stops : List (ℚ × Color))
  | radialGrad (x0 y0 r0 x1 y1 r1 : ℚ) (stops : List (ℚ × Color))
  deriving DecidableEq, Repr

/-- One observable drawing operation on the output surface, carrying the
composite operation and filter in force when it was issued. -/
inductive Ev
  | clearRect (x y w h : ℚ)
  | fillRect (x y w h : ℚ) (style : FillStyle) (op : CompOp) (filter : CanvasFilter)
  | drawImage (sx sy sw sh dx dy dw dh : ℚ) (op : CompOp) (filter : CanvasFilter)
  | drawSelf (dx dy : ℚ) (op : CompOp) (filter : CanvasFilter)
  | fillCircle (x y r : ℚ) (style : FillStyle) (op : CompOp) (filter : CanvasFilter)
  | strokePath (pts : List (ℚ × ℚ)) (color : Color) (width : ℚ) (op : CompOp)
      (filter : CanvasFilter)
  deriving DecidableEq, Repr

/-- Errors named by the specification's error-handling design; the
source's `draw` has no failure path, so the embedding never produces one. -/
inductive RenderError
  | invalidInput
  | invalidParameter
  | renderFailed
  deriving DecidableEq, Repr

/-- The implicit canvas context state threaded between layers: composite
operation, filter, and the `save`/`restore` stack of both. -/
structure CtxState where
  op : CompOp
  filter : CanvasFilter
  stack : List (CompOp × CanvasFilter)
  deriving DecidableEq, Repr

/-- Context state of a freshly (re)sized canvas. -/
def neutralCtx : CtxState := ⟨CompOp.sourceOver, CanvasFilter.noFilter, []⟩

/-- Model of `ctx.save()` restricted to the threaded fields. -/
def ctxSave (st : CtxState) : CtxState :=
  ⟨st.op, st.filter, (st.op, st.filter) :: st.stack⟩

/-- Model of `ctx.restore()` restricted to the threaded fields. -/
def ctxRestore (st : CtxState) : CtxState :=
  match st.stack with
  | [] => st
  | f :: rest => ⟨f.1, f.2, rest⟩

/-- Seed of the particle stream:
`Math.floor(intensity * 1e6) ^ W ^ H` (exact for the non-negative values
the sliders produce, where the JS int32 xor agrees with `Nat.xor`). -/
def particleSeed (intensity : ℚ) (W H : ℕ) : ℕ :=
  ((⌊intensity * 1000000⌋).toNat ^^^ W) ^^^ H

/-- Loop body of `drawParticles`: each particle draws `x`, `y`, radius and
alpha from the stream and fills a radial-gradient disc of radius `4 r`
under the ambient composite operation and filter. -/
def particlesLoop (W H : ℕ) (op : CompOp) (flt : CanvasFilter) :
    ℕ → ℕ → ℕ × List Ev
  | s, 0 => (s, [])
  | s, n + 1 =>
    let s1 := lcg s
    let x := rval s1 * (W : ℚ)
    let s2 := lcg s1
    let y := rval s2 * (H : ℚ)
    let s3 := lcg s2
    let r := 1 / 2 + rval s3 * (11 / 5)
    let s4 := lcg s3
    let a := 7 / 20 + rval s4 * (9 / 20)
    let ev := Ev.fillCircle x y (r * 4)
      (FillStyle.radialGrad x y 0 x y (r * 4)
        [(0, ⟨255, 255, 255, a⟩), (1, ⟨100, 220, 255, 0⟩)]) op flt
    let rest := particlesLoop W H op flt s4 n
    (rest.1, ev :: rest.2)

/-- The particle layer `drawParticles(ctx, W, H, count, intensity)`:
`save`, switch to `screen` compositing, draw `count` sparkles from the
stream seeded by `particleSeed`, `restore`. -/
def drawParticles (W H count : ℕ) (intensity : ℚ) (st : CtxState) :
    CtxState × List Ev :=
  let st1 := ctxSave st
  let st2 := { st1 with op := CompOp.screen }
  let res := particlesLoop W H st2.op st2.filter
    (seedInit (particleSeed intensity W H)) count
  (ctxRestore st2, res.2)

/-- Seed of the lightning stream: `12345 + Math.floor(intensity * 1000)`. -/
def lightningSeed (intensity : ℚ) : ℕ := 12345 + (⌊intensity * 1000⌋).toNat

/-- Per-step data of one lightning branch: the two independently perturbed
heading arguments passed to `Math.cos` and `Math.sin`, the two jitter
offsets, and the resulting point. -/
structure LStep where
  angX : ℚ
  angY : ℚ
  jx : ℚ
  jy : ℚ
  px : ℚ
  py : ℚ
  deriving DecidableEq, Repr, Inhabited

/-- The inner segment loop of a lightning branch: per step, the code draws
a fresh perturbation for the `cos` advance, a fresh perturbation for the
`sin` advance, then a horizontal and a vertical jitter. -/
def boltSteps (jm : JsMath) (angle len segQ jitter : ℚ) :
    ℚ → ℚ → ℕ → ℕ → ℕ × List LStep
  | _, _, s, 0 => (s, [])
  | x, y, s, n + 1 =>
    let s1 := lcg s
    let angX := angle + (rval s1 - 1 / 2) * (1 / 2)
    let s2 := lcg s1
    let angY := angle + (rval s2 - 1 / 2) * (1 / 2)
    let s3 := lcg s2
    let jx := (rval s3 - 1 / 2) * jitter
    let s4 := lcg s3
    let jy := (rval s4 - 1 / 2) * jitter
    let x' := x + jm.cos angX * (len / segQ) + jx
    let y' := y + jm.sin angY * (len / segQ) + jy
    let rest := boltSteps jm angle len segQ jitter x' y' s4 n
    (rest.1, ⟨angX, angY, jx, jy, x', y'⟩ :: rest.2)

/-- The step list produced by the segment loop, identical to the list
component of `boltSteps` (see `boltSteps_snd`); kept as its own recursion
so the step list can be extracted without evaluating the paired stream
state. -/
def boltStepsList (jm : JsMath) (angle len segQ jitter : ℚ) :
    ℚ → ℚ → ℕ → ℕ → List LStep
  | _, _, _, 0 => []
  | x, y, s, n + 1 =>
    let s1 := lcg s
    let angX := angle + (rval s1 - 1 / 2) * (1 / 2)
    let s2 := lcg s1
    let angY := angle + (rval s2 - 1 / 2) * (1 / 2)
    let s3 := lcg s2
    let jx := (rval s3 - 1 / 2) * jitter
    let s4 := lcg s3
    let jy := (rval s4 - 1 / 2) * jitter
    let x' := x + jm.cos angX * (len / segQ) + jx
    let y' := y + jm.sin angY * (len / segQ) + jy
    ⟨angX, angY, jx, jy, x', y'⟩ :: boltStepsList jm angle len segQ jitter x' y' s4 n

/-- Data of one lightning branch: origin, total length, segment count,
jitter magnitude, base heading and the step list, drawn from the stream
in source order. -/
structure LBranch where
  x0 : ℚ
  y0 : ℚ
  len : ℚ
  segments : ℕ
  jitter : ℚ
  angle : ℚ
  steps : List LStep
  deriving DecidableEq, Repr

/-- The six initialising draws of one lightning branch, in stream order,
together with the stream state reached after them. -/
structure BranchInit where
  x0 : ℚ
  y0 : ℚ
  len : ℚ
  segments : ℕ
  jitter : ℚ
  angle : ℚ
  s6 : ℕ
  deriving DecidableEq, Repr

/-- The head of the branch loop body in `drawLightning`: origin, length,
segment count, jitter magnitude and base heading, drawn in source order. -/
def branchInit (jm : JsMath) (W H : ℕ) (intensity : ℚ) (s : ℕ) : BranchInit :=
  let s1 := lcg s
  let x0 := rval s1 * (W : ℚ) * (4 / 5) + (W : ℚ) * (1 / 10)
  let s2 := lcg s1
  let y0 := rval s2 * (H : ℚ) * (4 / 5) + (H : ℚ) * (1 / 10)
  let s3 := lcg s2
  let len := ((H : ℚ) * (1 / 4) + rval s3 * (H : ℚ) * (7 / 20))
    * (7 / 10 + intensity * (3 / 5))
  let s4 := lcg s3
  let segments := 15 + (⌊rval s4 * 18⌋).toNat
  let s5 := lcg s4
  let jitter := 10 + 30 * rval s5
  let s6 := lcg s5
  let angle := rval s6 * jm.pi * 2
  ⟨x0, y0, len, segments, jitter, angle, s6⟩

/-- One iteration of the branch loop in `drawLightning`, threading the
stream state: the six initialising draws followed by the segment loop
(state component from `boltSteps`, step list from its certified twin
`boltStepsList`). -/
def boltBranch (jm : JsMath) (W H : ℕ) (intensity : ℚ) (s : ℕ) :
    ℕ × LBranch :=
  let bi := branchInit jm W H intensity s
  ((boltSteps jm bi.angle bi.len (bi.segments : ℚ) bi.jitter
      bi.x0 bi.y0 bi.s6 bi.segments).1,
   ⟨bi.x0, bi.y0, bi.len, bi.segments, bi.jitter, bi.angle,
     boltStepsList jm bi.angle bi.len (bi.segments : ℚ) bi.jitter
       bi.x0 bi.y0 bi.s6 bi.segments⟩)

/-- The polyline stroked for a branch: the origin followed by the step
points. -/
def branchPts (br : LBranch) : List (ℚ × ℚ) :=
  (br.x0, br.y0) :: br.steps.map (fun t => (t.px, t.py))

/-- The branch loop of `drawLightning`: per branch a wide blurred cyan
glow stroke followed by a thin pale core stroke along the same points;
`ctx.filter` is left at `none` after each branch. -/
def lightningBranches (jm : JsMath) (W H : ℕ) (intensity : ℚ) :
    CtxState → ℕ → ℕ → CtxState × ℕ × List Ev
  | st, s, 0 => (st, s, [])
  | st, s, b + 1 =>
    let res := boltBranch jm W H intensity s
    let stGlow := { st with filter := CanvasFilter.blurOnly (8 + 10 * intensity) }
    let glowEv := Ev.strokePath (branchPts res.2) ⟨120, 220, 255, 11 / 20⟩ 6
      stGlow.op stGlow.filter
    let stCore := { stGlow with filter := CanvasFilter.noFilter }
    let coreEv := Ev.strokePath (branchPts res.2) ⟨200, 255, 255, 9 / 10⟩ 2
      stCore.op stCore.filter
    let rest := lightningBranches jm W H intensity stCore res.1 b
    (rest.1, rest.2.1, glowEv :: coreEv :: rest.2.2)

/-- The lightning layer `drawLightning(ctx, W, H, branches, intensity)`:
`save`, switch to `screen` compositing, draw the branches from the stream
seeded by `lightningSeed`, `restore`. -/
def drawLightning (jm : JsMath) (W H branches : ℕ) (intensity : ℚ)
    (st : CtxState) : CtxState × List Ev :=
  let st1 := ctxSave st
  let st2 := { st1 with op := CompOp.screen }
  let res := lightningBranches jm W H intensity st2
    (seedInit (lightningSeed intensity)) branches
  (ctxRestore res.1, res.2.2)

/-- Background stage: a vertical two-stop gradient fill when `background`
is `dark`, nothing when `transparent`. -/
def stageBackground (bg : Background) (W H : ℕ) (st : CtxState) :
    CtxState × List Ev :=
  match bg with
  | Background.dark =>
    (st, [Ev.fillRect 0 0 (W : ℚ) (H : ℚ)
      (FillStyle.linearGrad 0 0 0 (H : ℚ)
        [(0, ⟨11, 18, 32, 1⟩), (1, ⟨10, 15, 26, 1⟩)]) st.op st.filter])
  | Background.transparent => (st, [])

/-- Base-image stage: cover-fit the source and draw it with the
contrast/saturation filter, then reset the filter. -/
def stageBase (img : SourceImage) (contrast saturation : ℚ) (W H : ℕ)
    (st : CtxState) : CtxState × List Ev :=
  let f := fitCover img.width img.height W H
  let st1 := { st with filter := CanvasFilter.contrastSaturate contrast saturation }
  let ev := Ev.drawImage (f.sx : ℚ) (f.sy : ℚ) (f.s : ℚ) (f.s : ℚ)
    (f.dx : ℚ) (f.dy : ℚ) (f.d : ℚ) (f.d : ℚ) st1.op st1.filter
  ({ st1 with filter := CanvasFilter.noFilter }, [ev])

/-- Tint stage: screen-composite a centred radial cyan gradient whose
alpha scales with `cyanize` clamped into `[0, 1]`, then reset the
composite operation. -/
def stageTint (cyanize : ℚ) (W H : ℕ) (st : CtxState) : CtxState × List Ev :=
  let st1 := { st with op := CompOp.screen }
  let c := clamp cyanize 0 1
  let ev := Ev.fillRect 0 0 (W : ℚ) (H : ℚ)
    (FillStyle.radialGrad ((W : ℚ) / 2) ((H : ℚ) / 2) ((W : ℚ) * (3 / 20))
      ((W : ℚ) / 2) ((H : ℚ) / 2) ((W : ℚ) * (4 / 5))
      [(0, ⟨0, 255, 255, 7 / 20 * c⟩), (1, ⟨0, 160, 255, 1 / 10 * c⟩)])
    st1.op st1.filter
  ({ st1 with op := CompOp.sourceOver }, [ev])

/-- Glow stage: when `glow > 0`, screen-composite the surface onto itself
with a blur/brightness/saturation filter inside a `save`/`restore` pair. -/
def stageGlow (glow intensity : ℚ) (st : CtxState) : CtxState × List Ev :=
  if glow > 0 then
    let st1 := ctxSave st
    let flt := CanvasFilter.blurBrightSat glow (1 + intensity)
      (1 + intensity * (2 / 5))
    let st2 := { st1 with op := CompOp.screen, filter := flt }
    (ctxRestore st2, [Ev.drawSelf 0 0 st2.op st2.filter])
  else (st, [])

/-- Vignette stage: when `vignette > 0`, fill a centred radial darkening
gradient under the ambient (normal) composite operation. -/
def stageVignette (vignette : ℚ) (W H : ℕ) (st : CtxState) :
    CtxState × List Ev :=
  if vignette > 0 then
    (st, [Ev.fillRect 0 0 (W : ℚ) (H : ℚ)
      (FillStyle.radialGrad ((W : ℚ) / 2) ((H : ℚ) / 2) ((W : ℚ) * (1 - vignette))
        ((W : ℚ) / 2) ((H : ℚ) / 2) ((W : ℚ) * (3 / 4))
        [(0, ⟨0, 0, 0, 0⟩), (1, ⟨0, 0, 0, 11 / 20⟩)]) st.op st.filter])
  else (st, [])

/-- The whole `draw` pass: clear, background, and — only when a source
image is present — base image, tint, glow, particles, optional lightning
and vignette, in source order, returning the final context state and the
event trace. -/
def drawFull (jm : JsMath) (img : Option SourceImage) (p : StyleParameters) :
    CtxState × List Ev :=
  let W := p.size
  let ev0 := Ev.clearRect 0 0 (W : ℚ) (W : ℚ)
  let bg := stageBackground p.background W W neutralCtx
  match img with
  | none => (bg.1, ev0 :: bg.2)
  | some im =>
    let base := stageBase im p.contrast p.saturation W W bg.1
    let tint := stageTint p.cyanize W W base.1
    let glow := stageGlow p.glow p.intensity tint.1
    let parts := drawParticles W W p.particles p.intensity glow.1
    let light := if p.lightning then drawLightning jm W W 6 p.intensity parts.1
      else (parts.1, [])
    let vig := stageVignette p.vignette W W light.1
    (vig.1, ev0 :: (bg.2 ++ base.2 ++ tint.2 ++ glow.2 ++ parts.2
      ++ light.2 ++ vig.2))

/-- The render entry point.  The source `draw` has no failure path, so the
embedding always succeeds; the error type exists because the
specification names error outcomes. -/
def draw (jm : JsMath) (img : Option SourceImage) (p : StyleParameters) :
    Except RenderError (List Ev) :=
  Except.ok (drawFull jm img p).2

/-- Event list of a render result (empty for an error). -/
def traceOf (res : Except RenderError (List Ev)) : List Ev :=
  match res with
  | Except.ok t => t
  | Except.error _ => []

/-- Whether an event is a particle sparkle (the only `fillCircle` events). -/
def isSparkleEv : Ev → Bool
  | Ev.fillCircle _ _ _ _ _ _ => true
  | _ => false

/-- Whether an event is a lightning stroke (the only `strokePath` events). -/
def isBoltEv : Ev → Bool
  | Ev.strokePath _ _ _ _ _ => true
  | _ => false

/-- Whether a lightning step's heading perturbations lie within ±1/4 rad
of the branch heading and its jitter offsets within ±`jitter`/2. -/
def stepInBounds (angle jitter : ℚ) (st : LStep) : Bool :=
  decide (-(1 / 4) ≤ st.angX - angle) && decide (st.angX - angle < 1 / 4)
    && decide (-(1 / 4) ≤ st.angY - angle) && decide (st.angY - angle < 1 / 4)
    && decide (-(jitter / 2) ≤ st.jx) && decide (st.jx < jitter / 2)
    && decide (-(jitter / 2) ≤ st.jy) && decide (st.jy < jitter / 2)

theorem rval_eq_mod (s : ℕ) : rval s = ((s % 16777216 : ℕ) : ℚ) / 16777216 := by
  have h := Nat.and_pow_two_sub_one_eq_mod s 24
  norm_num at h
  rw [rval, h]

theorem rval_nonneg (s : ℕ) : 0 ≤ rval s := by
  rw [rval_eq_mod]
  positivity

theorem rval_lt_one (s : ℕ) : rval s < 1 := by
  rw [rval_eq_mod]
  rw [div_lt_one (by norm_num)]
  have h : s % 16777216 < 16777216 := Nat.mod_lt s (by norm_num)
  exact_mod_cast h

theorem streamState_lt (seed n : ℕ) : streamState seed (n + 1) < 4294967296 :=
  Nat.mod_lt _ (by norm_num)

/-- Claim C3: streams with equal seeds produce equal value sequences, seed 0
behaves exactly like seed 1, the state follows the LCG recurrence
`s = (1664525*s + 1013904223) mod 2^32`, each output equals
`(state mod 2^24) / 2^24`, and every output lies in `[0, 1)`. -/
theorem c3_stream_lcg_spec :
    (∀ s₁ s₂ : ℕ, s₁ = s₂ → ∀ n, streamVal s₁ n = streamVal s₂ n)
    ∧ (∀ n, streamVal 0 n = streamVal 1 n)
    ∧ (∀ seed n, streamState seed (n + 1)
        = (1664525 * streamState seed n + 1013904223) % 2 ^ 32)
    ∧ (∀ seed n, streamVal seed n
        = ((streamState seed (n + 1) % 2 ^ 24 : ℕ) : ℚ) / 2 ^ 24)
    ∧ (∀ seed n, 0 ≤ streamVal seed n ∧ streamVal seed n < 1) := by
  refine ⟨fun s₁ s₂ h n => by rw [h], fun n => ?_, fun seed n => by
    show lcg _ = _
    rw [lcg]
    norm_num, fun seed n => by rw [streamVal, rval_eq_mod]; norm_num,
    fun seed n => ⟨rval_nonneg _, rval_lt_one _⟩⟩
  have hstate : ∀ m, streamState 0 m = streamState 1 m := by
    intro m
    induction m with
    | zero => rfl
    | succ k ih => show lcg _ = lcg _; rw [ih]
  rw [streamVal, streamVal, hstate]

/-- Claim C3 witness: the equal-seed guarantee applied at the concrete
seeds 7 and 7 and draw index 3, its hypothesis discharged by `rfl`. -/
theorem c3_stream_lcg_spec_witness : streamVal 7 3 = streamVal 7 3 :=
  c3_stream_lcg_spec.1 7 7 rfl 3

theorem clamp_clamp (v a b : ℚ) (hab : a ≤ b) :
    clamp (clamp v a b) a b = clamp v a b := by
  have hw1 : a ≤ clamp v a b := le_max_left _ _
  have hw2 : clamp v a b ≤ b := max_le hab (min_le_left _ _)
  conv_lhs => rw [clamp]
  rw [min_eq_right hw2, max_eq_right hw1]

theorem clamp_of_one_le (x : ℚ) (hx : 1 ≤ x) : clamp x 0 1 = 1 := by
  rw [clamp, min_eq_left hx]
  norm_num

/-- Claim C4: `fitCover` on source (800, 400) and destination (300, 300)
returns the centred horizontal crop `sx = 200`, `sy = 0`, `s = 400`, with
the destination the full 300 × 300 square at offset (0, 0). -/
theorem c4_fitCover_800x400_to_300 :
    fitCover 800 400 300 300 = ⟨200, 0, 400, 0, 0, 300⟩ := by
  rw [fitCover]
  norm_num

/-- Claim C5 counterexample: for the square source (100, 100) and the
non-square destination (300, 600) — dimensions `fitCover` accepts — the
crop is not the full source: `sx = 25 ≠ 0` and `s = 50 ≠ 100`, refuting
the claim that no cropping ever occurs for square sources. -/
theorem c5_square_source_crop_cex :
    ¬ ((fitCover 100 100 300 600).sx = 0 ∧ (fitCover 100 100 300 600).sy = 0
        ∧ (fitCover 100 100 300 600).s = 100) := by
  have h : fitCover 100 100 300 600 = ⟨25, 0, 50, 0, 0, 300⟩ := by
    rw [fitCover]
    norm_num
  rw [h]
  intro hc
  exact absurd hc.1 (by norm_num)

/-- Claim C5 (amended): for every square source and every **square**
destination — the shape `fitCover` is invoked with, the canvas being
`size × size` — no cropping occurs: `sx = 0`, `sy = 0`, and the crop side
equals the source side. -/
theorem c5_square_source_no_crop (iw W : ℕ) (hiw : 0 < iw) (hW : 0 < W) :
    fitCover iw iw W W = ⟨0, 0, (iw : ℤ), 0, 0, (W : ℤ)⟩ := by
  have hiw' : (iw : ℚ) ≠ 0 := by exact_mod_cast hiw.ne'
  have hW' : (W : ℚ) ≠ 0 := by exact_mod_cast hW.ne'
  rw [fitCover]
  simp only [div_self hiw', div_self hW', gt_iff_lt, lt_self_iff_false,
    if_false, mul_one, Int.floor_natCast, FitRect.mk.injEq]
  push_cast
  norm_num

/-- Claim C5 witness: the amended statement applied to a 100 × 100 source
and a 512 × 512 destination, hypotheses discharged by `norm_num`. -/
theorem c5_square_source_no_crop_witness :
    fitCover 100 100 512 512 = ⟨0, 0, 100, 0, 0, 512⟩ :=
  c5_square_source_no_crop 100 512 (by norm_num) (by norm_num)

theorem boltSteps_snd (jm : JsMath) (angle len segQ jitter : ℚ) :
    ∀ (n : ℕ) (x y : ℚ) (s : ℕ),
    (boltSteps jm angle len segQ jitter x y s n).2
      = boltStepsList jm angle len segQ jitter x y s n := by
  intro n
  induction n with
  | zero => intro x y s; rfl
  | succ k ih =>
    intro x y s
    simp only [boltSteps, boltStepsList]
    rw [ih]

theorem boltBranch_steps (jm : JsMath) (W H : ℕ) (intensity : ℚ) (s : ℕ) :
    (boltBranch jm W H intensity s).2.steps
      = boltStepsList jm (branchInit jm W H intensity s).angle
          (branchInit jm W H intensity s).len
          ((branchInit jm W H intensity s).segments : ℚ)
          (branchInit jm W H intensity s).jitter
          (branchInit jm W H intensity s).x0
          (branchInit jm W H intensity s).y0
          (branchInit jm W H intensity s).s6
          (branchInit jm W H intensity s).segments := rfl

theorem boltBranch_angle (jm : JsMath) (W H : ℕ) (intensity : ℚ) (s : ℕ) :
    (boltBranch jm W H intensity s).2.angle
      = (branchInit jm W H intensity s).angle := rfl

theorem boltBranch_jitter (jm : JsMath) (W H : ℕ) (intensity : ℚ) (s : ℕ) :
    (boltBranch jm W H intensity s).2.jitter
      = (branchInit jm W H intensity s).jitter := rfl

theorem branchInit_jitter (jm : JsMath) (W H : ℕ) (intensity : ℚ) (s : ℕ) :
    (branchInit jm W H intensity s).jitter
      = 10 + 30 * rval (lcg (lcg (lcg (lcg (lcg s))))) := rfl

theorem ctxRestore_of_stack (X : CtxState) (o : CompOp) (f : CanvasFilter)
    (rest : List (CompOp × CanvasFilter)) (h : X.stack = (o, f) :: rest) :
    ctxRestore X = ⟨o, f, rest⟩ := by
  obtain ⟨xo, xf, xs⟩ := X
  simp only at h
  subst h
  rfl

theorem stageBackground_fst (bg : Background) (W H : ℕ) (st : CtxState) :
    (stageBackground bg W H st).1 = st := by
  cases bg <;> rfl

theorem stageBase_fst_neutral (img : SourceImage) (c s : ℚ) (W H : ℕ) :
    (stageBase img c s W H neutralCtx).1 = neutralCtx := rfl

theorem stageTint_fst_neutral (cy : ℚ) (W H : ℕ) :
    (stageTint cy W H neutralCtx).1 = neutralCtx := rfl

theorem stageGlow_fst (g i : ℚ) (st : CtxState) : (stageGlow g i st).1 = st := by
  rw [stageGlow]
  split <;> rfl

theorem drawParticles_fst (W H count : ℕ) (i : ℚ) (st : CtxState) :
    (drawParticles W H count i st).1 = st := rfl

theorem lightningBranches_fst_stack (jm : JsMath) (W H : ℕ) (i : ℚ) :
    ∀ (b : ℕ) (st : CtxState) (s : ℕ),
    ((lightningBranches jm W H i st s b).1).stack = st.stack := by
  intro b
  induction b with
  | zero => intro st s; rfl
  | succ k ih =>
    intro st s
    simp only [lightningBranches]
    rw [ih]

theorem drawLightning_fst (jm : JsMath) (W H b : ℕ) (i : ℚ) (st : CtxState) :
    (drawLightning jm W H b i st).1 = st := by
  simp only [drawLightning]
  rw [ctxRestore_of_stack _ st.op st.filter st.stack
    (by rw [lightningBranches_fst_stack]; rfl)]

theorem stageVignette_fst (v : ℚ) (W H : ℕ) (st : CtxState) :
    (stageVignette v W H st).1 = st := by
  rw [stageVignette]
  split <;> rfl

theorem drawFull_fst (jm : JsMath) (img : Option SourceImage)
    (p : StyleParameters) : (drawFull jm img p).1 = neutralCtx := by
  cases img with
  | none => simp only [drawFull, stageBackground_fst]
  | some im =>
    cases hl : p.lightning <;>
      simp only [drawFull, hl, if_true, if_false, Bool.false_eq_true,
        stageBackground_fst, stageBase_fst_neutral, stageTint_fst_neutral,
        stageGlow_fst, drawParticles_fst, drawLightning_fst, stageVignette_fst]

/-- Claim C9: every layer compositor leaves the composite operation, the
filter and the save stack exactly as it found them (background, glow,
particles, lightning and vignette for an arbitrary entry state; the base
image and tint stages, which reset the filter resp. the operation
unconditionally, for the neutral entry state they run in), and the full
render — with or without a source image — ends in the neutral context
state, so no stage ever observes a non-neutral operation or filter left
over from a previous stage. -/
theorem c9_compositors_restore_neutral_state (jm : JsMath) (im : SourceImage)
    (p : StyleParameters) (st : CtxState) :
    (stageBackground p.background p.size p.size st).1 = st
    ∧ (stageBase im p.contrast p.saturation p.size p.size neutralCtx).1 = neutralCtx
    ∧ (stageTint p.cyanize p.size p.size neutralCtx).1 = neutralCtx
    ∧ (stageGlow p.glow p.intensity st).1 = st
    ∧ (drawParticles p.size p.size p.particles p.intensity st).1 = st
    ∧ (drawLightning jm p.size p.size 6 p.intensity st).1 = st
    ∧ (stageVignette p.vignette p.size p.size st).1 = st
    ∧ (drawFull jm (some im) p).1 = neutralCtx
    ∧ (drawFull jm none p).1 = neutralCtx :=
  ⟨stageBackground_fst _ _ _ _, stageBase_fst_neutral _ _ _ _ _,
    stageTint_fst_neutral _ _ _, stageGlow_fst _ _ _, drawParticles_fst _ _ _ _ _,
    drawLightning_fst _ _ _ _ _ _, stageVignette_fst _ _ _ _,
    drawFull_fst _ _ _, drawFull_fst _ _ _⟩

/-- Claim C10: with width equal to height — as in the call
`drawParticles(ctx, W, H, …)` where both are the canvas size — the two
xor terms of the particle seed cancel, so the seed equals
`floor(intensity · 1e6)` for every output size, and the particle layer
consumes an identical random sequence at any two sizes. -/
theorem c10_particle_seed_size_independent (intensity : ℚ) (s₁ s₂ : ℕ) :
    particleSeed intensity s₁ s₁ = particleSeed intensity s₂ s₂
    ∧ ∀ n, streamVal (particleSeed intensity s₁ s₁) n
        = streamVal (particleSeed intensity s₂ s₂) n := by
  have h : ∀ s : ℕ, particleSeed intensity s s = (⌊intensity * 1000000⌋).toNat :=
    fun s => Nat.xor_cancel_right s _
  refine ⟨by rw [h, h], fun n => by rw [h, h]⟩

/-- Claim C1 counterexample: with no source image, particle count 150 and
lightning on, the render draws neither a particle sparkle nor a lightning
stroke — the trace is just the clear and the background fill — refuting
the claim that the particle and lightning layers are drawn independently
of source-image presence. -/
theorem c1_particles_lightning_need_image_cex :
    ¬ (((traceOf (draw ⟨355 / 113, fun _ => 1, fun _ => 0⟩ none
          ⟨512, 24, 7 / 10, 11 / 20, 11 / 10, 5 / 4, 7 / 20, 150, true,
            Background.dark⟩)).any isSparkleEv = true)
        ∧ ((traceOf (draw ⟨355 / 113, fun _ => 1, fun _ => 0⟩ none
          ⟨512, 24, 7 / 10, 11 / 20, 11 / 10, 5 / 4, 7 / 20, 150, true,
            Background.dark⟩)).any isBoltEv = true)) := by
  intro hc
  have h : traceOf (draw ⟨355 / 113, fun _ => 1, fun _ => 0⟩ none
      ⟨512, 24, 7 / 10, 11 / 20, 11 / 10, 5 / 4, 7 / 20, 150, true,
        Background.dark⟩)
      = [Ev.clearRect 0 0 512 512,
         Ev.fillRect 0 0 512 512
           (FillStyle.linearGrad 0 0 0 512
             [(0, ⟨11, 18, 32, 1⟩), (1, ⟨10, 15, 26, 1⟩)])
           CompOp.sourceOver CanvasFilter.noFilter] := by
    simp [traceOf, draw, drawFull, stageBackground, neutralCtx]
  rw [h] at hc
  simp [List.any, isSparkleEv] at hc

/-- Claim C1 (amended): when no source image is present, only the clear
and the background stage run — every other layer, particles and lightning
included, is skipped, whatever the parameters say. -/
theorem c1_no_image_renders_background_only (jm : JsMath)
    (p : StyleParameters) :
    draw jm none p = Except.ok (Ev.clearRect 0 0 (p.size : ℚ) (p.size : ℚ)
        :: (stageBackground p.background p.size p.size neutralCtx).2)
    ∧ (traceOf (draw jm none p)).any isSparkleEv = false
    ∧ (traceOf (draw jm none p)).any isBoltEv = false := by
  refine ⟨rfl, ?_, ?_⟩ <;>
    cases hb : p.background <;>
      simp [hb, traceOf, draw, drawFull, stageBackground, isSparkleEv, isBoltEv]

/-- Claim C2: the render is a pure function — two invocations on identical
inputs give identical results — and both internal pseudo-random seeds
(particle and lightning streams) are fully determined by
`(intensity, outputSize)`. -/
theorem c2_render_deterministic :
    (∀ (jm : JsMath) (img : Option SourceImage) (p : StyleParameters),
      draw jm img p = draw jm img p)
    ∧ (∀ p q : StyleParameters, p.intensity = q.intensity → p.size = q.size →
        particleSeed p.intensity p.size p.size
          = particleSeed q.intensity q.size q.size
        ∧ lightningSeed p.intensity = lightningSeed q.intensity) :=
  ⟨fun _ _ _ => rfl, fun p q hi hs => by rw [hi, hs]; exact ⟨rfl, rfl⟩⟩

/-- Claim C2 witness: the seed-determination part applied to two concrete
parameter records that agree on intensity and size but differ everywhere
else, hypotheses discharged by `rfl`. -/
theorem c2_render_deterministic_witness :
    particleSeed (7 / 10) 512 512 = particleSeed (7 / 10) 512 512
    ∧ lightningSeed (7 / 10) = lightningSeed (7 / 10) :=
  c2_render_deterministic.2
    ⟨512, 24, 7 / 10, 11 / 20, 11 / 10, 5 / 4, 7 / 20, 150, true, Background.dark⟩
    ⟨512, 0, 7 / 10, 1, 1, 1, 0, 0, false, Background.transparent⟩ rfl rfl

theorem clamp_clamp01 (v : ℚ) : clamp (clamp v 0 1) 0 1 = clamp v 0 1 :=
  clamp_clamp v 0 1 zero_le_one

/-- Claim C6: `cyanize` reaches the pipeline only through
`clamp(cyanize, 0, 1)`, so rendering with any `cyanize = x` equals
rendering with the clamped value, and any value at least 1 — e.g. 1.5 —
renders identically to `cyanize = 1`. -/
theorem c6_cyanize_clamped (jm : JsMath) (img : Option SourceImage)
    (p : StyleParameters) (x : ℚ) :
    (draw jm img { p with cyanize := x }
      = draw jm img { p with cyanize := clamp x 0 1 })
    ∧ (1 ≤ x → draw jm img { p with cyanize := x }
      = draw jm img { p with cyanize := 1 }) := by
  have h : draw jm img { p with cyanize := x }
      = draw jm img { p with cyanize := clamp x 0 1 } := by
    cases img with
    | none => rfl
    | some im => simp only [draw, drawFull, stageTint, clamp_clamp01]
  exact ⟨h, fun hx => by rw [h, clamp_of_one_le x hx]⟩

/-- Claim C6 witness: the theorem applied at `cyanize = 3/2` for a
concrete image and parameter record, the hypothesis `1 ≤ 3/2` discharged
by `norm_num`. -/
theorem c6_cyanize_clamped_witness :
    draw ⟨355 / 113, fun _ => 1, fun _ => 0⟩ (some ⟨64, 64⟩)
      { (⟨512, 24, 7 / 10, 11 / 20, 11 / 10, 5 / 4, 7 / 20, 150, true,
          Background.dark⟩ : StyleParameters) with cyanize := 3 / 2 }
    = draw ⟨355 / 113, fun _ => 1, fun _ => 0⟩ (some ⟨64, 64⟩)
      { (⟨512, 24, 7 / 10, 11 / 20, 11 / 10, 5 / 4, 7 / 20, 150, true,
          Background.dark⟩ : StyleParameters) with cyanize := 1 } :=
  (c6_cyanize_clamped ⟨355 / 113, fun _ => 1, fun _ => 0⟩ (some ⟨64, 64⟩)
    ⟨512, 24, 7 / 10, 11 / 20, 11 / 10, 5 / 4, 7 / 20, 150, true,
      Background.dark⟩ (3 / 2)).2 (by norm_num)

/-- Claim C8 counterexample: a source image of width 0 does **not** make
the render fail with an `InvalidInput` error — `draw` has no validation
path at all — refuting the claim that degenerate geometry is rejected
before the fit-cover computation. -/
theorem c8_zero_size_not_rejected_cex :
    draw ⟨355 / 113, fun _ => 1, fun _ => 0⟩ (some ⟨0, 5⟩)
      ⟨512, 24, 7 / 10, 11 / 20, 11 / 10, 5 / 4, 7 / 20, 0, false,
        Background.dark⟩
      ≠ Except.error RenderError.invalidInput := by
  simp [draw]

/-- Claim C8 (amended): the render never fails — for every source image,
zero-sized ones included, it returns a completed trace — and the
fit-cover computation **is** attempted on the degenerate geometry: the
trace contains the base-image draw whose rectangles come from
`fitCover` applied to the given (possibly zero) dimensions. -/
theorem c8_no_validation_fitcover_attempted (jm : JsMath)
    (p : StyleParameters) (w h : ℕ) :
    (∃ evs, draw jm (some ⟨w, h⟩) p = Except.ok evs)
    ∧ Ev.drawImage ((fitCover w h p.size p.size).sx : ℚ)
        ((fitCover w h p.size p.size).sy : ℚ)
        ((fitCover w h p.size p.size).s : ℚ) ((fitCover w h p.size p.size).s : ℚ)
        ((fitCover w h p.size p.size).dx : ℚ) ((fitCover w h p.size p.size).dy : ℚ)
        ((fitCover w h p.size p.size).d : ℚ) ((fitCover w h p.size p.size).d : ℚ)
        CompOp.sourceOver (CanvasFilter.contrastSaturate p.contrast p.saturation)
      ∈ traceOf (draw jm (some ⟨w, h⟩) p) := by
  refine ⟨⟨_, rfl⟩, ?_⟩
  simp only [traceOf, draw, drawFull, stageBackground_fst, stageBase,
    List.mem_cons, List.mem_append, List.mem_singleton]
  tauto

theorem boltStepsList_all_inBounds (jm : JsMath) (angle len segQ jitter : ℚ)
    (hj : 0 < jitter) :
    ∀ (n : ℕ) (x y : ℚ) (s : ℕ),
    (boltStepsList jm angle len segQ jitter x y s n).all
      (stepInBounds angle jitter) = true := by
  intro n
  induction n with
  | zero => intro x y s; rfl
  | succ k ih =>
    intro x y s
    simp only [boltStepsList, List.all_cons, Bool.and_eq_true]
    refine ⟨?_, ih _ _ _⟩
    have h1 := rval_nonneg (lcg s)
    have h1' := rval_lt_one (lcg s)
    have h2 := rval_nonneg (lcg (lcg s))
    have h2' := rval_lt_one (lcg (lcg s))
    have h3 := rval_nonneg (lcg (lcg (lcg s)))
    have h3' := rval_lt_one (lcg (lcg (lcg s)))
    have h4 := rval_nonneg (lcg (lcg (lcg (lcg s))))
    have h4' := rval_lt_one (lcg (lcg (lcg (lcg s))))
    simp only [stepInBounds, Bool.and_eq_true, decide_eq_true_eq]
    refine ⟨⟨⟨⟨⟨⟨⟨?_, ?_⟩, ?_⟩, ?_⟩, ?_⟩, ?_⟩, ?_⟩, ?_⟩ <;>
      first
        | linarith
        | nlinarith [mul_nonneg h3 hj.le, mul_nonneg h4 hj.le,
            mul_lt_mul_of_pos_right h3' hj, mul_lt_mul_of_pos_right h4' hj]

theorem boltStepsList_headI_angX (jm : JsMath) (angle len segQ jitter x y : ℚ)
    (s n : ℕ) (hn : n ≠ 0) :
    (boltStepsList jm angle len segQ jitter x y s n).headI.angX
      = angle + (rval (lcg s) - 1 / 2) * (1 / 2) := by
  cases n with
  | zero => exact absurd rfl hn
  | succ m => simp [boltStepsList]

theorem boltStepsList_headI_angY (jm : JsMath) (angle len segQ jitter x y : ℚ)
    (s n : ℕ) (hn : n ≠ 0) :
    (boltStepsList jm angle len segQ jitter x y s n).headI.angY
      = angle + (rval (lcg (lcg s)) - 1 / 2) * (1 / 2) := by
  cases n with
  | zero => exact absurd rfl hn
  | succ m => simp [boltStepsList]

/-- Claim C7 (amended): in every lightning branch, every step's horizontal
advance and vertical advance each use the branch's base heading perturbed
by **its own independent** draw of up to ±0.25 rad (the `cos` and `sin`
arguments are consecutive, distinct stream values), and the subsequent
horizontal and vertical jitter offsets are independent draws lying in
`[-jitter/2, +jitter/2)`. -/
theorem c7_steps_bounded_independent_perturbations (jm : JsMath) (W H : ℕ)
    (intensity : ℚ) (s : ℕ) :
    ((boltBranch jm W H intensity s).2.steps).all
      (stepInBounds (boltBranch jm W H intensity s).2.angle
        (boltBranch jm W H intensity s).2.jitter) = true := by
  have hj : 0 < (branchInit jm W H intensity s).jitter := by
    rw [branchInit_jitter]
    have := rval_nonneg (lcg (lcg (lcg (lcg (lcg s)))))
    linarith
  rw [boltBranch_steps, boltBranch_angle, boltBranch_jitter]
  exact boltStepsList_all_inBounds _ _ _ _ _ hj _ _ _ _

/-- Claim C7 counterexample: at the default intensity 0.7, the first step
of the first lightning branch passes **different** angles to `cos` and to
`sin` — the code draws a fresh perturbation for each of the horizontal
and vertical advances — refuting the claim that one common perturbed
heading drives both. -/
theorem c7_same_heading_cex :
    (boltBranch ⟨355 / 113, fun _ => 1, fun _ => 0⟩ 512 512 (7 / 10)
        (seedInit (lightningSeed (7 / 10)))).2.steps.headI.angX
      ≠ (boltBranch ⟨355 / 113, fun _ => 1, fun _ => 0⟩ 512 512 (7 / 10)
        (seedInit (lightningSeed (7 / 10)))).2.steps.headI.angY := by
  have hseed : seedInit (lightningSeed (7 / 10)) = 13045 := by
    have hf : (⌊(7 / 10 : ℚ) * 1000⌋ : ℤ) = 700 := by norm_num
    rw [seedInit, lightningSeed, hf]
    decide
  have e7 : lcg 2190728083 = 952675286 := by norm_num [lcg]
  have e8 : lcg 952675286 = 3674009917 := by norm_num [lcg]
  have hs6 : (branchInit ⟨355 / 113, fun _ => 1, fun _ => 0⟩ 512 512 (7 / 10)
      13045).s6 = 2190728083 := by
    show lcg (lcg (lcg (lcg (lcg (lcg 13045))))) = 2190728083
    norm_num [lcg]
  have hsegs : (branchInit ⟨355 / 113, fun _ => 1, fun _ => 0⟩ 512 512 (7 / 10)
      13045).segments = 30 := by
    show 15 + (⌊rval (lcg (lcg (lcg (lcg 13045)))) * 18⌋).toNat = 30
    have hm : rval (lcg (lcg (lcg (lcg 13045)))) = (14566137 : ℚ) / 16777216 := by
      rw [rval_eq_mod]
      norm_num [lcg]
    rw [hm]
    have hf : (⌊(14566137 : ℚ) / 16777216 * 18⌋ : ℤ) = 15 := by norm_num
    rw [hf]
    decide
  rw [hseed, boltBranch_steps, hs6, hsegs]
  rw [boltStepsList_headI_angX _ _ _ _ _ _ _ _ _ (by norm_num),
    boltStepsList_headI_angY _ _ _ _ _ _ _ _ _ (by norm_num)]
  rw [e7, e8, rval_eq_mod, rval_eq_mod]
  intro hc
  norm_num at hc

end SpiritPfp
